import Mathlib

/-!
Verification of the variousplug remote-execution workflow engine.

This file gives a shallow embedding, in Lean 4, of the core logic of the
variousplug repository: the status normalizer, the instance resolver /
auto-selector, the workflow executor's orchestration, the platform clients'
destroy / execute-command logic, the file-sync result handling, the
cost-optimized instance-creation parameter merge, and the exclude-pattern
merge.  Pure computations are translated directly from the Python source
(`src/variousplug/*.py`); effectful collaborator calls (provider SDK calls,
subprocesses, the container engine) are modelled by explicit outcome
parameters, so every function here is total and executable.

Python-specific conventions are modelled explicitly:
  * `pyLower` models `str.lower()` (the source only lowercases ASCII keywords);
  * `pyTruthyStr` / `pyTruthyNat` model Python truthiness of optional
    strings (`None` and `""` are falsy) and optional integers (`None` and `0`
    are falsy);
  * raising an exception is modelled with `Except` outcome values; a function
    that never lets an exception escape has a plain (non-`Except`) result type.
-/

/- ### Python string helpers -/

/-- Model of Python `str.lower()` (character-wise ASCII lowercasing). -/
def pyLower (s : String) : String := String.mk (s.data.map Char.toLower)

/-- Substring search on character lists: does `hay` contain `needle`? -/
def listContainsSub : List Char → List Char → Bool
  | hay, needle =>
    needle.isPrefixOf hay ||
      match hay with
      | [] => false
      | _ :: t => listContainsSub t needle

/-- Model of Python `needle in hay` substring containment. -/
def pyIn (needle hay : String) : Bool := listContainsSub hay.data needle.data

/-- Characters remaining after the first occurrence of `needle` (empty if absent). -/
def listAfterFirst : List Char → List Char → List Char
  | hay, needle =>
    if needle.isPrefixOf hay then hay.drop needle.length
    else
      match hay with
      | [] => []
      | _ :: t => listAfterFirst t needle

/-- Model of Python `s.split(sep, 1)[1]` (used only when `sep in s` holds). -/
def pyAfterFirst (sep s : String) : String := String.mk (listAfterFirst s.data sep.data)

/-- Model of Python `s.strip()`. -/
def pyStripWs (s : String) : String :=
  String.mk (((s.data.dropWhile Char.isWhitespace).reverse.dropWhile Char.isWhitespace).reverse)

/-- The two quote characters stripped by the simulation's echo branch:
`Char.ofNat 34` is the double quote and `Char.ofNat 39` the single quote. -/
def quoteChars : List Char := [Char.ofNat 34, Char.ofNat 39]

/-- Model of Python `s.strip("\x22\x27")`. -/
def pyStripQuotes (s : String) : String :=
  String.mk (((s.data.dropWhile (quoteChars.contains ·)).reverse.dropWhile
    (quoteChars.contains ·)).reverse)

/-- Model of Python `" ".join(command)`. -/
def pyJoinSpace (command : List String) : String :=
  String.mk (List.intercalate [' '] (command.map String.data))

/-- Python truthiness of an optional string: `None` and `""` are falsy. -/
def pyTruthyStr : Option String → Bool
  | none => false
  | some s => !s.isEmpty

/-- Python truthiness of an optional integer: `None` and `0` are falsy. -/
def pyTruthyNat : Option Nat → Bool
  | none => false
  | some n => n != 0

/-- Python `a or b` default idiom on optional strings
(`request.gpu_type or "GTX_1070"`). -/
def pyOrStr (o : Option String) (d : String) : String :=
  if pyTruthyStr o then o.getD d else d

/- ### Data model (`interfaces.py`) -/

/-- `InstanceStatus` enumeration from `interfaces.py`. -/
inductive InstanceStatus
  | pending
  | starting
  | running
  | stopping
  | stopped
  | error
  | unknown
deriving DecidableEq, Repr

/-- `InstanceInfo` dataclass from `interfaces.py`.  The opaque `raw_data`
provider payload is omitted: it is never inspected by the modelled logic. -/
structure InstanceInfo where
  id : String
  platform : String
  status : InstanceStatus
  gpu_type : Option String := none
  image : Option String := none
  ssh_host : Option String := none
  ssh_port : Option Nat := none
  ssh_username : Option String := none
deriving DecidableEq, Repr

/-- `ExecutionResult` from `utils.py`, with the constructor's default values
(`output=""`, `error=""`, `exit_code=0`).  Equality is structural over all
four fields, matching the Python `__eq__`. -/
structure ExecutionResult where
  success : Bool
  output : Option String := some ""
  error : Option String := some ""
  exit_code : Option Int := some 0
deriving DecidableEq, Repr

/- ### Status normalizer (`base.py`, `BasePlatformClient._normalize_status`) -/

/-- The fixed lowercase lookup table of `_normalize_status`. -/
def status_map : List (String × InstanceStatus) :=
  [("running", .running),
   ("ready", .running),
   ("pending", .pending),
   ("loading", .starting),
   ("initializing", .starting),
   ("starting", .starting),
   ("created", .stopped),
   ("stopped", .stopped),
   ("exited", .stopped),
   ("terminated", .stopped),
   ("error", .error),
   ("failed", .error)]

/-- `BasePlatformClient._normalize_status`: `None` maps to `UNKNOWN`, otherwise
the lowercased input is looked up in `status_map`, defaulting to `UNKNOWN`. -/
def normalize_status (raw_status : Option String) : InstanceStatus :=
  match raw_status with
  | none => .unknown
  | some s => (status_map.lookup (pyLower s)).getD .unknown

/- ### Command validation and pattern merge (`utils.py`) -/

/-- The fixed unsafe-command denylist of `validate_command`. -/
def dangerous_commands : List String := ["rm", "rmdir", "del", "format", "fdisk"]

/-- `utils.validate_command`: the command must be non-empty and its first
token, lowercased, must not be in the denylist. -/
def validate_command (command : List String) : Bool :=
  match command with
  | [] => false
  | c :: _ => !(dangerous_commands.contains (pyLower c))

/-- `utils.merge_exclude_patterns`: the Python code builds a `set` from the
config patterns, adds the `.vpignore` patterns, and returns `list(...)` of it.
The set content (unordered, duplicate-free) is modelled as a `Finset`. -/
def merge_exclude_patterns (config_patterns vpignore_patterns : List String) :
    Finset String :=
  config_patterns.toFinset ∪ vpignore_patterns.toFinset

/- ### Instance resolver (`executor.py` and `cli.py`) -/

/-- `WorkflowExecutor._resolve_target_instance`.  The platform client's
`get_instance` and `list_instances` results are passed in explicitly.  With a
(truthy) explicit id the client lookup is returned; otherwise the first
`RUNNING` instance is selected, else the first instance with status in
`[STOPPED, PENDING]`, else none. -/
def resolve_target_instance (getInstance : String → Option InstanceInfo)
    (instances : List InstanceInfo) (instance_id : Option String) :
    Option InstanceInfo :=
  if pyTruthyStr instance_id then getInstance (instance_id.getD "")
  else
    match instances.filter (fun i => i.status == InstanceStatus.running) with
    | selected :: _ => some selected
    | [] =>
      match instances.filter (fun i =>
          i.status == InstanceStatus.stopped || i.status == InstanceStatus.pending) with
      | selected :: _ => some selected
      | [] => none

/-- `cli._auto_select_instance` (the other auto-selection call site): first
`RUNNING` instance, else first instance with status in `[PENDING, STARTING]`,
else none; returns the selected instance's id. -/
def auto_select_instance (instances : List InstanceInfo) : Option String :=
  match instances.filter (fun i => i.status == InstanceStatus.running) with
  | selected :: _ => some selected.id
  | [] =>
    match instances.filter (fun i =>
        i.status == InstanceStatus.pending || i.status == InstanceStatus.starting) with
    | selected :: _ => some selected.id
    | [] => none

/-- Modelled from the spec: the resolver behaviour asserted by the
specification (first `Running`, else first in `{Pending, Starting}`, else
absent), written from the spec's words for comparison with the code's
`resolve_target_instance`. -/
def spec_resolver (instances : List InstanceInfo) : Option InstanceInfo :=
  match instances.filter (fun i => i.status == InstanceStatus.running) with
  | selected :: _ => some selected
  | [] =>
    match instances.filter (fun i =>
        i.status == InstanceStatus.pending || i.status == InstanceStatus.starting) with
    | selected :: _ => some selected
    | [] => none

/- ### Workflow executor (`executor.py`, `WorkflowExecutor.execute_workflow`) -/

/-- Outcomes of the executor's collaborators, passed in explicitly: the
platform client's `get_instance` map and `list_instances` result, the result
of `_build_step` (`None` models build failure or missing Dockerfile), of
`_sync_step_upload`, of `_run_step`, and of `_sync_step_download`. -/
structure WorkflowEnv where
  getInstance : String → Option InstanceInfo
  instances : List InstanceInfo
  buildResult : Option String
  uploadResult : Bool
  runResult : ExecutionResult
  downloadResult : Bool

/-- Which workflow steps were attempted (the observable side effects of
`execute_workflow` towards its collaborators). -/
structure StepTrace where
  resolveAttempted : Bool := false
  buildAttempted : Bool := false
  uploadAttempted : Bool := false
  runAttempted : Bool := false
  downloadAttempted : Bool := false
deriving DecidableEq, Repr

/-- The empty trace: no collaborator was consulted. -/
def noSteps : StepTrace := {}

/-- `WorkflowExecutor.execute_workflow`, returning the workflow's
`ExecutionResult` together with the trace of attempted steps.  The control
flow mirrors the source: invalid command fails immediately; no resolved
instance (unless sync-only) fails; the build step runs unless `no_sync`, its
falsy result is fatal; upload runs unless `no_sync` or no instance, its
failure is fatal; sync-only returns success after upload; the run result is
the workflow result; the download step's result is ignored. -/
def execute_workflow (env : WorkflowEnv) (command : List String)
    (instance_id : Option String) (sync_only : Bool) (no_sync : Bool) :
    ExecutionResult × StepTrace :=
  if validate_command command = false then
    ({ success := false, error := some "Invalid or unsafe command" }, noSteps)
  else
    let target := resolve_target_instance env.getInstance env.instances instance_id
    let tr1 : StepTrace := { resolveAttempted := true }
    if target.isNone ∧ sync_only = false then
      ({ success := false, error := some "No instance available for execution" }, tr1)
    else
      let tr2 := if no_sync = false then { tr1 with buildAttempted := true } else tr1
      if no_sync = false ∧ pyTruthyStr env.buildResult = false then
        ({ success := false, error := some "Build step failed" }, tr2)
      else
        let tr3 :=
          if no_sync = false ∧ target.isSome then { tr2 with uploadAttempted := true } else tr2
        if no_sync = false ∧ target.isSome ∧ env.uploadResult = false then
          ({ success := false, error := some "Upload sync step failed" }, tr3)
        else if sync_only then
          ({ success := true, output := some "Files synchronized" }, tr3)
        else if target.isNone then
          ({ success := false, error := some "No instance available for command execution" }, tr3)
        else
          let tr4 := { tr3 with runAttempted := true }
          let tr5 := if no_sync = false then { tr4 with downloadAttempted := true } else tr4
          (env.runResult, tr5)

/- ### Destroy instance (`vast_client.py` / `runpod_client.py`) -/

/-- `VastClient.destroy_instance`'s fallback loop over `methods_to_try`: the
outcome of each fallback mechanism (the direct API call, the raw HTTP DELETE,
and the alternate SDK method names) is given as an `Except` value in order; a
raised exception is caught and the next method tried; success returns `True`;
exhaustion returns `False`. -/
def vast_destroy_loop : List (Except String Unit) → Bool
  | [] => false
  | Except.ok _ :: _ => true
  | Except.error _ :: rest => vast_destroy_loop rest

/-- `VastClient.destroy_instance`: client initialization may itself raise
(caught by the outer handler, returning `False`); otherwise the fallback loop
runs.  The plain `Bool` result type reflects that no exception escapes. -/
def vast_destroy_instance (init : Except String Unit)
    (outcomes : List (Except String Unit)) : Bool :=
  match init with
  | Except.error _ => false
  | Except.ok _ => vast_destroy_loop outcomes

/-- `RunPodClient.destroy_instance`: `terminate_pod`'s outcome is passed in;
on success the function returns `True`, but on an exception the handler logs
and re-raises (`raise`), so the exception propagates (`Except.error`). -/
def runpod_destroy_instance (outcome : Except String Unit) : Except String Bool :=
  match outcome with
  | Except.ok _ => Except.ok true
  | Except.error e => Except.error e

/- ### Remote command execution (`vast_client.py` / `runpod_client.py`) -/

/-- Result of a completed `subprocess.run`. -/
structure SubprocessResult where
  returncode : Int
  stdout : String
  stderr : String
deriving DecidableEq, Repr

/-- Outcome of the SSH subprocess invocation: it completed, timed out
(`subprocess.TimeoutExpired`), or raised some other exception. -/
inductive SshOutcome
  | ran (r : SubprocessResult)
  | timeout
  | raised (msg : String)
deriving DecidableEq, Repr

/-- Outcome of the Vast SDK `execute` fallback: a dict with
stdout/stderr/exit_code, some non-dict value (stringified), or a raised
exception. -/
inductive SdkOutcome
  | dict (stdout stderr : String) (exit_code : Int)
  | nonDict (repr : String)
  | raised
deriving DecidableEq, Repr

/-- Which path `execute_command` took: the fail-fast validation return, the
simulation fallback, a real SSH execution, the Vast SDK fallback, or the
final exception handler. -/
inductive ExecPath
  | failFast
  | simulated
  | sshReal
  | sdk
  | raisedError
deriving DecidableEq, Repr

/-- The Vast simulation branch for a command string (`vast_client.py`,
`execute_command`, SSH-unavailable case). -/
def simulate_vast (cmd_str : String) : ExecutionResult :=
  if pyIn "python --version" cmd_str then
    { success := true, output := some "Python 3.8.10" }
  else if pyIn "echo" cmd_str then
    { success := true, output := some (pyStripQuotes (pyStripWs (pyAfterFirst "echo" cmd_str))) }
  else if pyIn "test_script.py" cmd_str then
    { success := true, output := some "VariousPlug Test Script\nTest completed successfully!" }
  else
    { success := true, output := some ("Simulated execution: " ++ cmd_str) }

/-- The Vast simulation used after a failed SSH or SDK attempt (only the
`test_script.py` special case, else the generic simulated output). -/
def simulate_vast_fallback (cmd_str : String) : ExecutionResult :=
  if pyIn "test_script.py" cmd_str then
    { success := true, output := some "VariousPlug Test Script\nTest completed successfully!" }
  else
    { success := true, output := some ("Simulated execution: " ++ cmd_str) }

/-- The Vast SDK fallback path (`self._client.execute(...)`): a dict result
maps to an `ExecutionResult` with `success = (exit_code == 0)` and output
chosen from stdout/stderr; a non-dict result is stringified as a success; a
raised exception falls back to simulation. -/
def vast_sdk_path (cmd_str : String) (sdk : SdkOutcome) : ExecutionResult × ExecPath :=
  match sdk with
  | SdkOutcome.dict out err code =>
    if code = 0 then
      ({ success := true, output := some out, error := some err, exit_code := some code },
        ExecPath.sdk)
    else
      ({ success := false, output := some err, error := some err, exit_code := some code },
        ExecPath.sdk)
  | SdkOutcome.nonDict s => ({ success := true, output := some s }, ExecPath.sdk)
  | SdkOutcome.raised => (simulate_vast_fallback cmd_str, ExecPath.simulated)

/-- `VastClient.execute_command`: validates the looked-up instance (absent or
not running fails fast), simulates when SSH info is falsy, otherwise runs the
SSH subprocess; a zero exit is returned as a real result, a non-zero exit
falls back to simulation, and an SSH exception (timeout included) tries the
SDK path. -/
def vast_execute_command (instance_id : String) (lookup : Option InstanceInfo)
    (command : List String) (ssh : SshOutcome) (sdk : SdkOutcome) :
    ExecutionResult × ExecPath :=
  let cmd_str := pyJoinSpace command
  match lookup with
  | none =>
    ({ success := false, error := some ("Instance " ++ instance_id ++ " not found") },
      ExecPath.failFast)
  | some inst =>
    if inst.status ≠ InstanceStatus.running then
      ({ success := false, error := some ("Instance " ++ instance_id ++ " is not running") },
        ExecPath.failFast)
    else if pyTruthyStr inst.ssh_host = false ∨ pyTruthyNat inst.ssh_port = false then
      (simulate_vast cmd_str, ExecPath.simulated)
    else
      match ssh with
      | SshOutcome.ran r =>
        if r.returncode = 0 then
          ({ success := true, output := some r.stdout, error := some r.stderr,
             exit_code := some r.returncode }, ExecPath.sshReal)
        else
          (simulate_vast_fallback cmd_str, ExecPath.simulated)
      | SshOutcome.timeout => vast_sdk_path cmd_str sdk
      | SshOutcome.raised _ => vast_sdk_path cmd_str sdk

/-- The RunPod simulation branch for a command string (`runpod_client.py`,
`execute_command`, SSH-unavailable case; no `test_script.py` special case). -/
def simulate_runpod (cmd_str : String) : ExecutionResult :=
  if pyIn "python --version" cmd_str then
    { success := true, output := some "Python 3.10.12" }
  else if pyIn "echo" cmd_str then
    { success := true, output := some (pyStripQuotes (pyStripWs (pyAfterFirst "echo" cmd_str))) }
  else
    { success := true, output := some ("Simulated execution: " ++ cmd_str) }

/-- `RunPodClient.execute_command`: validates the looked-up instance, simulates
when SSH info is falsy, otherwise the SSH result is returned directly with
`success = (returncode == 0)`; a timeout yields the distinct
"Command execution timed out" failure, any other exception a generic one. -/
def runpod_execute_command (instance_id : String) (lookup : Option InstanceInfo)
    (command : List String) (ssh : SshOutcome) : ExecutionResult × ExecPath :=
  let cmd_str := pyJoinSpace command
  match lookup with
  | none =>
    ({ success := false, error := some ("Instance " ++ instance_id ++ " not found") },
      ExecPath.failFast)
  | some inst =>
    if inst.status ≠ InstanceStatus.running then
      ({ success := false, error := some ("Pod " ++ instance_id ++ " is not running") },
        ExecPath.failFast)
    else if pyTruthyStr inst.ssh_host = false ∨ pyTruthyNat inst.ssh_port = false then
      (simulate_runpod cmd_str, ExecPath.simulated)
    else
      match ssh with
      | SshOutcome.ran r =>
        ({ success := r.returncode = 0,
           output := some (if r.returncode = 0 then r.stdout else r.stderr),
           error := some r.stderr, exit_code := some r.returncode }, ExecPath.sshReal)
      | SshOutcome.timeout =>
        ({ success := false, error := some "Command execution timed out" },
          ExecPath.raisedError)
      | SshOutcome.raised msg =>
        ({ success := false, error := some msg }, ExecPath.raisedError)

/- ### File sync (`base.py`) -/

/-- Outcome of an rsync subprocess: it completed with a `SubprocessResult`, or
raised (timeout included). -/
inductive RunOutcome
  | ran (r : SubprocessResult)
  | raised
deriving DecidableEq, Repr

/-- `RsyncFileSync.upload_files`: missing SSH info or a raised exception is a
failure; otherwise success exactly on a zero rsync exit. -/
def rsyncFileSync_upload (inst : InstanceInfo) (outcome : RunOutcome) : Bool :=
  if pyTruthyStr inst.ssh_host = false || pyTruthyNat inst.ssh_port = false then false
  else
    match outcome with
    | RunOutcome.raised => false
    | RunOutcome.ran r => if r.returncode = 0 then true else false

/-- `RsyncFileSync.download_files`: missing SSH info or a raised exception is a
failure; but any completed rsync run returns `True` — a non-zero exit is only
logged as a warning ("Don't fail on download warnings"). -/
def rsyncFileSync_download (inst : InstanceInfo) (outcome : RunOutcome) : Bool :=
  if pyTruthyStr inst.ssh_host = false || pyTruthyNat inst.ssh_port = false then false
  else
    match outcome with
    | RunOutcome.raised => false
    | RunOutcome.ran r => if r.returncode = 0 then true else true

/-- `VastFileSync.upload_files`: missing SSH info or a raised exception is a
failure; otherwise success exactly on a zero rsync exit. -/
def vastFileSync_upload (inst : InstanceInfo) (outcome : RunOutcome) : Bool :=
  if pyTruthyStr inst.ssh_host = false || pyTruthyNat inst.ssh_port = false then false
  else
    match outcome with
    | RunOutcome.raised => false
    | RunOutcome.ran r => if r.returncode = 0 then true else false

/-- `VastFileSync.download_files`: missing SSH info or a raised exception is a
failure; a zero exit succeeds, the recognized partial-transfer exits 23 and 24
succeed with a warning, and any other exit fails. -/
def vastFileSync_download (inst : InstanceInfo) (outcome : RunOutcome) : Bool :=
  if pyTruthyStr inst.ssh_host = false || pyTruthyNat inst.ssh_port = false then false
  else
    match outcome with
    | RunOutcome.raised => false
    | RunOutcome.ran r =>
      if r.returncode = 0 then true
      else if r.returncode = 23 ∨ r.returncode = 24 then true
      else false

/- ### Instance creation (`vast_client.py`, `VastClient.create_instance`) -/

/-- A value in the Vast creation parameter dict.  Python string values that
the code treats numerically (the caller-supplied price) and the string
produced by `str(min(float(value), 0.50))` are modelled by the `num`
constructor carrying the rational value the decimal string denotes; other
strings stay `str`; booleans stay `bool`. -/
inductive PVal
  | str (v : String)
  | bool (v : Bool)
  | num (v : ℚ)
deriving DecidableEq, Repr

/-- Model of Python `float(value)` on a `PVal`: numbers parse to themselves,
booleans to 0/1, and a non-numeric string raises `ValueError` (`none`). -/
def pyFloat : PVal → Option ℚ
  | PVal.num v => some v
  | PVal.bool b => some (if b then 1 else 0)
  | PVal.str _ => none

/-- `CreateInstanceRequest` from `interfaces.py`; `additional_params` is the
(insertion-ordered) dict of caller overrides. -/
structure CreateInstanceRequest where
  gpu_type : Option String := none
  instance_type : Option String := none
  image : Option String := none
  additional_params : Option (List (String × PVal)) := none

/-- Dict update `params[key] = value` on an association list: replaces the
value at an existing key, else appends. -/
def setParam (ps : List (String × PVal)) (k : String) (v : PVal) :
    List (String × PVal) :=
  if (ps.map Prod.fst).contains k then
    ps.map (fun p => if p.1 = k then (k, v) else p)
  else ps ++ [(k, v)]

/-- Dict lookup `params[key]` on the association list. -/
def lookupParam (ps : List (String × PVal)) (k : String) : Option PVal :=
  (ps.find? (fun p => p.1 == k)).map Prod.snd

/-- The cost-optimized default parameters of `VastClient.create_instance`,
including the `instance_type` entry added when the request carries one. -/
def vast_default_params (request : CreateInstanceRequest) : List (String × PVal) :=
  let params : List (String × PVal) :=
    [("num_gpus", PVal.str "1"),
     ("gpu_name", PVal.str (pyOrStr request.gpu_type "GTX_1070")),
     ("image", PVal.str (pyOrStr request.image "pytorch/pytorch")),
     ("disk_gb", PVal.str "10"),
     ("price", PVal.str "0.50"),
     ("direct_port_count", PVal.str "1"),
     ("use_jupyter_lab", PVal.bool false),
     ("auto_destroy", PVal.bool true)]
  if pyTruthyStr request.instance_type then
    setParam params "instance_type" (PVal.str (request.instance_type.getD ""))
  else params

/-- The `additional_params` merge loop of `VastClient.create_instance`: keys
outside `["price", "disk_gb", "direct_port_count"]` are set verbatim; `price`
is set to `str(min(float(value), 0.50))` (a non-numeric price raises, giving
`none`); `disk_gb` and `direct_port_count` fall into the final `else` branch
and are also set verbatim. -/
def vast_merge_additional (params : List (String × PVal)) :
    List (String × PVal) → Option (List (String × PVal))
  | [] => some params
  | (k, v) :: rest =>
    if ¬(k ∈ ["price", "disk_gb", "direct_port_count"]) then
      vast_merge_additional (setParam params k v) rest
    else if k = "price" then
      match pyFloat v with
      | none => none
      | some q => vast_merge_additional (setParam params "price" (PVal.num (min q 0.5))) rest
    else
      vast_merge_additional (setParam params k v) rest

/-- The full parameter construction of `VastClient.create_instance`: defaults,
then the `additional_params` merge (`none` models the `ValueError` from a
non-numeric price propagating out of the creation call). -/
def vast_create_params (request : CreateInstanceRequest) :
    Option (List (String × PVal)) :=
  match request.additional_params with
  | none => some (vast_default_params request)
  | some add => vast_merge_additional (vast_default_params request) add

/- ### Shared helper lemmas -/

/-- The head of a filtered list is the first element satisfying the predicate. -/
theorem filter_head?_eq_find? {α : Type} (p : α → Bool) (l : List α) :
    (l.filter p).head? = l.find? p := by
  induction l with
  | nil => rfl
  | cons a t ih => cases h : p a <;> simp [List.filter_cons, List.find?_cons, h, ih]

/-- Every `InstanceStatus` is one of the seven canonical values. -/
theorem instanceStatus_mem_canonical (st : InstanceStatus) :
    st ∈ [InstanceStatus.pending, InstanceStatus.starting, InstanceStatus.running,
      InstanceStatus.stopping, InstanceStatus.stopped, InstanceStatus.error,
      InstanceStatus.unknown] := by
  cases st <;> simp

/-- An empty or denylisted command fails validation (the denylist entries are
already lowercase, so lowercasing the first token is the identity on them). -/
theorem validate_command_false_of (command : List String)
    (h : command = [] ∨ ∃ c cs, command = c :: cs ∧ c ∈ dangerous_commands) :
    validate_command command = false := by
  rcases h with rfl | ⟨c, cs, rfl, hc⟩
  · rfl
  · fin_cases hc <;> rfl

/-- If every fallback mechanism fails, the Vast destroy loop returns false. -/
theorem vast_destroy_loop_all_fail (outcomes : List (Except String Unit))
    (h : ∀ o ∈ outcomes, ∃ e, o = Except.error e) :
    vast_destroy_loop outcomes = false := by
  induction outcomes with
  | nil => rfl
  | cons o rest ih =>
    obtain ⟨e, he⟩ := h o (by simp)
    subst he
    exact ih (fun o ho => h o (by simp [ho]))

/-- Appending to a non-empty string gives a non-empty string. -/
theorem string_append_ne_empty (a b : String) (h : a.data ≠ []) : a ++ b ≠ "" := by
  intro he
  apply h
  have hd : (a ++ b).data = ("" : String).data := congrArg String.data he
  rw [String.data_append] at hd
  exact List.append_eq_nil.mp hd |>.1

/- ### Claim theorems -/

/-- Claim C3: status normalization is total (the result is always one of the
seven canonical values), `None` maps to `Unknown`, unrecognized input maps to
`Unknown`, inputs with equal lowercasings (case variants of the same word) map
identically, and the concrete scenarios hold: `"RUNNING"` and `"running"` both
map to `Running`, `"TERMINATED"` maps to `Stopped`. -/
theorem normalize_status_total_case_insensitive :
    (∀ raw, normalize_status raw ∈ [InstanceStatus.pending, InstanceStatus.starting,
      InstanceStatus.running, InstanceStatus.stopping, InstanceStatus.stopped,
      InstanceStatus.error, InstanceStatus.unknown]) ∧
    normalize_status none = InstanceStatus.unknown ∧
    (∀ s, status_map.lookup (pyLower s) = none →
      normalize_status (some s) = InstanceStatus.unknown) ∧
    (∀ s t, pyLower s = pyLower t →
      normalize_status (some s) = normalize_status (some t)) ∧
    normalize_status (some "RUNNING") = InstanceStatus.running ∧
    normalize_status (some "running") = InstanceStatus.running ∧
    normalize_status (some "TERMINATED") = InstanceStatus.stopped := by
  refine ⟨fun raw => instanceStatus_mem_canonical _, rfl, ?_, ?_, by decide, by decide,
    by decide⟩
  · intro s h
    simp [normalize_status, h]
  · intro s t h
    simp [normalize_status, h]

/-- Witness for claim C3: an unrecognized raw status degrades to `Unknown`. -/
theorem normalize_status_total_case_insensitive_witness :
    normalize_status (some "gibberish") = InstanceStatus.unknown :=
  normalize_status_total_case_insensitive.2.2.1 "gibberish" (by decide)

/-- Claim C9: merging two exclude-pattern lists yields exactly the set union
of the two (membership iff membership in either input), is order-independent
in its inputs, never contains duplicates, and on the spec's concrete example
yields exactly the three-element set. -/
theorem merge_exclude_patterns_is_set_union :
    (∀ (a b : List String) (x : String),
      x ∈ merge_exclude_patterns a b ↔ x ∈ a ∨ x ∈ b) ∧
    (∀ a b, merge_exclude_patterns a b = merge_exclude_patterns b a) ∧
    (∀ a b, (merge_exclude_patterns a b).val.Nodup) ∧
    merge_exclude_patterns [".git/", "*.pyc"] [".git/", ".venv/"] =
      {".git/", "*.pyc", ".venv/"} := by
  refine ⟨?_, ?_, ?_, by decide⟩
  · intro a b x
    simp [merge_exclude_patterns]
  · intro a b
    simp [merge_exclude_patterns, Finset.union_comm]
  · intro a b
    exact (merge_exclude_patterns a b).nodup

/-- A list containing only an instance in status `Starting`, used to separate
the code's resolver from the claimed one. -/
def startingOnlyInstance : InstanceInfo :=
  { id := "i-start", platform := "vast", status := InstanceStatus.starting }

/-- Claim C1 (counterexample): on a list containing a single `Starting`
instance and no explicit id, the claimed priority (second tier
`{Pending, Starting}`) would return that instance — as the spec-modelled
resolver does — but `WorkflowExecutor._resolve_target_instance` returns
absent: its second tier is `{Stopped, Pending}` and does not accept
`Starting`. -/
theorem resolver_starting_tier_counterexample :
    spec_resolver [startingOnlyInstance] = some startingOnlyInstance ∧
    resolve_target_instance (fun _ => none) [startingOnlyInstance] none = none := by
  constructor <;> rfl

/-- Claim C1 (amended): with no explicit id,
`WorkflowExecutor._resolve_target_instance` returns the first instance (in the
provider's list order) whose status is `Running` if any; otherwise the first
instance whose status is in `{Stopped, Pending}`; otherwise absent.  The CLI
auto-selector `_auto_select_instance` is the call-site variant whose second
tier is `{Pending, Starting}`. -/
theorem resolver_auto_priority (g : String → Option InstanceInfo)
    (instances : List InstanceInfo) :
    resolve_target_instance g instances none =
      ((instances.find? (fun i => i.status == InstanceStatus.running)).orElse
        (fun _ => instances.find? (fun i =>
          i.status == InstanceStatus.stopped || i.status == InstanceStatus.pending))) ∧
    auto_select_instance instances =
      (((instances.find? (fun i => i.status == InstanceStatus.running)).orElse
        (fun _ => instances.find? (fun i =>
          i.status == InstanceStatus.pending || i.status == InstanceStatus.starting))).map
        (fun i => i.id)) := by
  constructor
  · unfold resolve_target_instance
    rw [← filter_head?_eq_find? (fun (i : InstanceInfo) => i.status == InstanceStatus.running),
      ← filter_head?_eq_find? (fun (i : InstanceInfo) =>
        i.status == InstanceStatus.stopped || i.status == InstanceStatus.pending)]
    cases h1 : instances.filter (fun i => i.status == InstanceStatus.running) with
    | cons a t => simp [h1, pyTruthyStr, Option.orElse]
    | nil =>
      cases h2 : instances.filter (fun i =>
          i.status == InstanceStatus.stopped || i.status == InstanceStatus.pending) with
      | cons a t => simp [h1, h2, pyTruthyStr, Option.orElse]
      | nil => simp [h1, h2, pyTruthyStr, Option.orElse]
  · unfold auto_select_instance
    rw [← filter_head?_eq_find? (fun (i : InstanceInfo) => i.status == InstanceStatus.running),
      ← filter_head?_eq_find? (fun (i : InstanceInfo) =>
        i.status == InstanceStatus.pending || i.status == InstanceStatus.starting)]
    cases h1 : instances.filter (fun i => i.status == InstanceStatus.running) with
    | cons a t => simp [h1, Option.orElse]
    | nil =>
      cases h2 : instances.filter (fun i =>
          i.status == InstanceStatus.pending || i.status == InstanceStatus.starting) with
      | cons a t => simp [h1, h2, Option.orElse]
      | nil => simp [h1, h2, Option.orElse]

/-- Claim C2 (counterexample): when `terminate_pod` raises,
`RunPodClient.destroy_instance` re-raises instead of returning false — the
exception propagates to the caller, matching the repository's own unit test
`test_destroy_instance_failure`. -/
theorem runpod_destroy_propagates_counterexample :
    runpod_destroy_instance (Except.error "Termination failed") =
      Except.error "Termination failed" := rfl

/-- Claim C2 (amended): `VastClient.destroy_instance` never propagates an
exception — if client initialization raises, or every fallback destroy
mechanism fails (including by raising), it returns false (with operator
warnings) — while `RunPodClient.destroy_instance` propagates the exception
raised by `terminate_pod`. -/
theorem destroy_failure_behaviour (init : Except String Unit)
    (outcomes : List (Except String Unit))
    (h : ∀ o ∈ outcomes, ∃ e, o = Except.error e) :
    vast_destroy_instance init outcomes = false ∧
    (∀ e : String, runpod_destroy_instance (Except.error e) = Except.error e) := by
  constructor
  · cases init with
    | error e => rfl
    | ok u => exact vast_destroy_loop_all_fail outcomes h
  · intro e
    rfl

/-- Witness for claim C2: with both fallback mechanisms raising, the Vast
destroy returns false. -/
theorem destroy_failure_behaviour_witness :
    vast_destroy_instance (Except.ok ())
      [Except.error "method 1 failed", Except.error "method 2 failed"] = false :=
  (destroy_failure_behaviour (Except.ok ())
    [Except.error "method 1 failed", Except.error "method 2 failed"]
    (by
      intro o ho
      simp only [List.mem_cons, List.not_mem_nil, or_false] at ho
      rcases ho with rfl | rfl
      · exact ⟨"method 1 failed", rfl⟩
      · exact ⟨"method 2 failed", rfl⟩)).1

/-- Claim C4: for a command that is empty or whose first token is in the fixed
unsafe-command denylist, `execute_workflow` returns the fatal "Invalid or
unsafe command" result immediately, with the empty step trace: no instance
resolution, build, upload, run, or download is attempted. -/
theorem workflow_invalid_command_short_circuit (env : WorkflowEnv)
    (command : List String) (instance_id : Option String) (sync_only no_sync : Bool)
    (h : command = [] ∨ ∃ c cs, command = c :: cs ∧ c ∈ dangerous_commands) :
    execute_workflow env command instance_id sync_only no_sync =
      ({ success := false, error := some "Invalid or unsafe command" }, noSteps) := by
  have hv := validate_command_false_of command h
  unfold execute_workflow
  rw [hv]
  rfl

/-- A workflow environment for the claim C4 witness whose collaborators would
all report activity if consulted. -/
def c4Env : WorkflowEnv :=
  { getInstance := fun _ => none, instances := [], buildResult := some "vp-x:latest",
    uploadResult := true, runResult := { success := true }, downloadResult := true }

/-- Witness for claim C4: a recursive-delete command is rejected with no steps
attempted. -/
theorem workflow_invalid_command_short_circuit_witness :
    execute_workflow c4Env ["rm", "-rf", "/workspace"] none false false =
      ({ success := false, error := some "Invalid or unsafe command" }, noSteps) :=
  workflow_invalid_command_short_circuit c4Env ["rm", "-rf", "/workspace"] none false false
    (Or.inr ⟨"rm", ["-rf", "/workspace"], rfl, by decide⟩)

/-- Claim C5: with sync enabled (`no_sync = false`, not sync-only), a valid
command, a resolved instance, a successful build and upload, and a failing run
step, `execute_workflow` still attempts the download step and returns the run
step's failing result unchanged (the download outcome, even a failure, does
not overturn it — `env.downloadResult` does not occur in the returned
result). -/
theorem workflow_download_after_run_failure (env : WorkflowEnv)
    (command : List String) (instance_id : Option String)
    (hv : validate_command command = true)
    (ht : (resolve_target_instance env.getInstance env.instances instance_id).isSome = true)
    (hb : pyTruthyStr env.buildResult = true)
    (hu : env.uploadResult = true)
    (hr : env.runResult.success = false) :
    execute_workflow env command instance_id false false =
      (env.runResult,
        { resolveAttempted := true, buildAttempted := true, uploadAttempted := true,
          runAttempted := true, downloadAttempted := true }) := by
  obtain ⟨t, ht'⟩ := Option.isSome_iff_exists.mp ht
  unfold execute_workflow
  rw [ht']
  simp [hv, hb, hu, noSteps]

/-- The resolvable running instance for the claim C5 witness. -/
def c5Instance : InstanceInfo :=
  { id := "w5", platform := "vast", status := InstanceStatus.running }

/-- The failing run-step result for the claim C5 witness. -/
def c5RunResult : ExecutionResult :=
  { success := false, output := some "", error := some "remote exit 1", exit_code := some 1 }

/-- A workflow environment for the claim C5 witness: build and upload succeed,
the run step fails, and the download step itself fails. -/
def c5Env : WorkflowEnv :=
  { getInstance := fun _ => none, instances := [c5Instance],
    buildResult := some "vp-proj:latest", uploadResult := true,
    runResult := c5RunResult, downloadResult := false }

/-- Witness for claim C5: the download step is attempted and the failing run
result is the workflow result. -/
theorem workflow_download_after_run_failure_witness :
    execute_workflow c5Env ["python", "train.py"] none false false =
      (c5Env.runResult,
        { resolveAttempted := true, buildAttempted := true, uploadAttempted := true,
          runAttempted := true, downloadAttempted := true }) :=
  workflow_download_after_run_failure c5Env ["python", "train.py"] none (by decide)
    (by decide) (by decide) rfl rfl

/-- Claim C6: for both platform clients, `execute_command` on an absent
instance, or on one whose status is not `Running`, returns a `success = false`
result carrying a non-empty error message, taking the fail-fast path — no SSH
execution, SDK call, or simulation is attempted (the result is independent of
the SSH and SDK outcomes). -/
theorem execute_command_fail_fast (instance_id : String) (lookup : Option InstanceInfo)
    (command : List String) (ssh : SshOutcome) (sdk : SdkOutcome)
    (h : lookup = none ∨ ∃ i, lookup = some i ∧ i.status ≠ InstanceStatus.running) :
    ((vast_execute_command instance_id lookup command ssh sdk).1.success = false ∧
      (vast_execute_command instance_id lookup command ssh sdk).2 = ExecPath.failFast ∧
      (vast_execute_command instance_id lookup command ssh sdk).1.error ≠ some "") ∧
    ((runpod_execute_command instance_id lookup command ssh).1.success = false ∧
      (runpod_execute_command instance_id lookup command ssh).2 = ExecPath.failFast ∧
      (runpod_execute_command instance_id lookup command ssh).1.error ≠ some "") := by
  rcases h with rfl | ⟨i, rfl, hi⟩
  · refine ⟨⟨rfl, rfl, ?_⟩, ⟨rfl, rfl, ?_⟩⟩
    · intro hc
      exact string_append_ne_empty "Instance " (instance_id ++ " not found") (by decide)
        (Option.some.inj hc)
    · intro hc
      exact string_append_ne_empty "Instance " (instance_id ++ " not found") (by decide)
        (Option.some.inj hc)
  · have hveq : vast_execute_command instance_id (some i) command ssh sdk =
        ({ success := false, error := some ("Instance " ++ instance_id ++ " is not running") },
          ExecPath.failFast) := by
      simp only [vast_execute_command, if_pos hi]
    have hreq : runpod_execute_command instance_id (some i) command ssh =
        ({ success := false, error := some ("Pod " ++ instance_id ++ " is not running") },
          ExecPath.failFast) := by
      simp only [runpod_execute_command, if_pos hi]
    rw [hveq, hreq]
    refine ⟨⟨rfl, rfl, ?_⟩, ⟨rfl, rfl, ?_⟩⟩
    · intro hc
      exact string_append_ne_empty "Instance " (instance_id ++ " is not running") (by decide)
        (Option.some.inj hc)
    · intro hc
      exact string_append_ne_empty "Pod " (instance_id ++ " is not running") (by decide)
        (Option.some.inj hc)

/-- A stopped instance for the claim C6 witness. -/
def c6Instance : InstanceInfo :=
  { id := "c6", platform := "vast", status := InstanceStatus.stopped,
    ssh_host := some "1.2.3.4", ssh_port := some 22 }

/-- Witness for claim C6: executing on a stopped instance fails fast on both
clients. -/
theorem execute_command_fail_fast_witness :
    (vast_execute_command "c6" (some c6Instance) ["ls"] SshOutcome.timeout
      SdkOutcome.raised).2 = ExecPath.failFast ∧
    (runpod_execute_command "c6" (some c6Instance) ["ls"] SshOutcome.timeout).2 =
      ExecPath.failFast :=
  ⟨(execute_command_fail_fast "c6" (some c6Instance) ["ls"] SshOutcome.timeout
      SdkOutcome.raised (Or.inr ⟨c6Instance, rfl, by decide⟩)).1.2.1,
   (execute_command_fail_fast "c6" (some c6Instance) ["ls"] SshOutcome.timeout
      SdkOutcome.raised (Or.inr ⟨c6Instance, rfl, by decide⟩)).2.2.1⟩

/-- Claim C10: whenever the instance is `Running` but its SSH host or port is
falsy (absent or empty/zero), both clients' `execute_command` takes the
simulation path, and the simulated result always has `success = true` and
`exit_code = 0`, for every command. -/
theorem simulation_path_always_succeeds (instance_id : String) (inst : InstanceInfo)
    (command : List String) (ssh : SshOutcome) (sdk : SdkOutcome)
    (hrun : inst.status = InstanceStatus.running)
    (hssh : pyTruthyStr inst.ssh_host = false ∨ pyTruthyNat inst.ssh_port = false) :
    vast_execute_command instance_id (some inst) command ssh sdk =
      (simulate_vast (pyJoinSpace command), ExecPath.simulated) ∧
    (simulate_vast (pyJoinSpace command)).success = true ∧
    (simulate_vast (pyJoinSpace command)).exit_code = some 0 ∧
    runpod_execute_command instance_id (some inst) command ssh =
      (simulate_runpod (pyJoinSpace command), ExecPath.simulated) ∧
    (simulate_runpod (pyJoinSpace command)).success = true ∧
    (simulate_runpod (pyJoinSpace command)).exit_code = some 0 := by
  have hns : ¬(inst.status ≠ InstanceStatus.running) := by simp [hrun]
  refine ⟨?_, ?_, ?_, ?_, ?_, ?_⟩
  · simp only [vast_execute_command, if_neg hns, if_pos hssh]
  · unfold simulate_vast
    split_ifs <;> rfl
  · unfold simulate_vast
    split_ifs <;> rfl
  · simp only [runpod_execute_command, if_neg hns, if_pos hssh]
  · unfold simulate_runpod
    split_ifs <;> rfl
  · unfold simulate_runpod
    split_ifs <;> rfl

/-- A running instance without SSH connection info for the claim C10 witness. -/
def c10Instance : InstanceInfo :=
  { id := "c10", platform := "runpod", status := InstanceStatus.running }

/-- Witness for claim C10: the simulation fallback reports success for a
command that would fail on any real host. -/
theorem simulation_path_always_succeeds_witness :
    vast_execute_command "c10" (some c10Instance) ["false"] (SshOutcome.raised "boom")
      SdkOutcome.raised = (simulate_vast (pyJoinSpace ["false"]), ExecPath.simulated) ∧
    (simulate_vast (pyJoinSpace ["false"])).success = true :=
  ⟨(simulation_path_always_succeeds "c10" c10Instance ["false"] (SshOutcome.raised "boom")
      SdkOutcome.raised rfl (Or.inl rfl)).1,
   (simulation_path_always_succeeds "c10" c10Instance ["false"] (SshOutcome.raised "boom")
      SdkOutcome.raised rfl (Or.inl rfl)).2.1⟩

/-- An instance with full SSH connection info for the claim C7 theorems. -/
def c7Instance : InstanceInfo :=
  { id := "c7", platform := "vast", status := InstanceStatus.running,
    ssh_host := some "5.6.7.8", ssh_port := some 2222, ssh_username := some "root" }

/-- Claim C7 (counterexample): `RsyncFileSync.download_files` returns success
even for a genuine failure exit — rsync exit 255 (unreachable host) completed
run still returns `True`, where the claim requires `false`.  Only the
`VastFileSync` variant distinguishes the partial-transfer exits 23/24 from
genuine failures. -/
theorem rsync_download_total_leniency_counterexample :
    rsyncFileSync_download c7Instance
      (RunOutcome.ran { returncode := 255, stdout := "", stderr := "Connection refused" }) =
      true := rfl

/-- Claim C7 (amended): for `VastFileSync`, a download returns success exactly
on exit 0 or the recognized partial-transfer exits 23/24, and fails on any
other exit; for `RsyncFileSync`, a completed download returns success
regardless of exit code (it fails only on missing SSH info or a raised
exception); both uploads are stricter, succeeding exactly on exit 0 — so
downloads are strictly more lenient than uploads on both implementations. -/
theorem download_leniency (inst : InstanceInfo) (r : SubprocessResult)
    (hh : pyTruthyStr inst.ssh_host = true) (hp : pyTruthyNat inst.ssh_port = true) :
    (vastFileSync_download inst (RunOutcome.ran r) = true ↔
      (r.returncode = 0 ∨ r.returncode = 23 ∨ r.returncode = 24)) ∧
    rsyncFileSync_download inst (RunOutcome.ran r) = true ∧
    (vastFileSync_upload inst (RunOutcome.ran r) = true ↔ r.returncode = 0) ∧
    (rsyncFileSync_upload inst (RunOutcome.ran r) = true ↔ r.returncode = 0) := by
  unfold vastFileSync_download rsyncFileSync_download vastFileSync_upload rsyncFileSync_upload
  simp only [hh, hp]
  norm_num

/-- Witness for claim C7: the partial-transfer exit 23 is reported as success
by the Vast download. -/
theorem download_leniency_witness :
    vastFileSync_download c7Instance
      (RunOutcome.ran { returncode := 23, stdout := "", stderr := "partial" }) = true :=
  ((download_leniency c7Instance { returncode := 23, stdout := "", stderr := "partial" }
    rfl rfl).1).mpr (Or.inr (Or.inl rfl))

/-- Claim C8 (counterexample): a caller-supplied `disk_gb` of 100 replaces the
cost-optimized default of 10 verbatim — the disk size is raised, not
only-lowered, so the only-lowered policy does not apply to disk size. -/
theorem create_disk_override_counterexample :
    lookupParam (vast_default_params {}) "disk_gb" = some (PVal.str "10") ∧
    (vast_create_params
        { additional_params := some [("disk_gb", PVal.str "100")] }).map
      (fun ps => lookupParam ps "disk_gb") = some (some (PVal.str "100")) := by
  constructor <;> rfl

/-- Claim C8 (amended): in the Vast creation-parameter merge, a caller-supplied
price is set to `min(value, 0.50)` — capped at the fixed maximum 0.50 rather
than rejected, and never raised above it — while `disk_gb` and
`direct_port_count` overrides (and every key outside the cost-sensitive
triple) are applied verbatim, with no only-lowered policy. -/
theorem create_params_cost_policy (params : List (String × PVal)) (q : ℚ) (v : PVal)
    (k : String) (hk : ¬(k ∈ ["price", "disk_gb", "direct_port_count"])) :
    vast_merge_additional params [("price", PVal.num q)] =
      some (setParam params "price" (PVal.num (min q 0.5))) ∧
    min q 0.5 ≤ 0.5 ∧
    vast_merge_additional params [("disk_gb", v)] = some (setParam params "disk_gb" v) ∧
    vast_merge_additional params [("direct_port_count", v)] =
      some (setParam params "direct_port_count" v) ∧
    vast_merge_additional params [(k, v)] = some (setParam params k v) := by
  refine ⟨?_, min_le_right _ _, ?_, ?_, ?_⟩
  · simp [vast_merge_additional, pyFloat]
  · simp [vast_merge_additional]
  · simp [vast_merge_additional]
  · simp [vast_merge_additional, hk]

/-- Witness for claim C8: a price override of 2.0 is capped down to 0.5, and a
non-cost key is set verbatim. -/
theorem create_params_cost_policy_witness :
    vast_merge_additional [] [("price", PVal.num 2)] =
      some (setParam [] "price" (PVal.num (min 2 0.5))) :=
  (create_params_cost_policy [] 2 (PVal.str "x") "image" (by decide)).1
